import Mathlib

/-!
Shallow embedding of the Weather-OPS core (src/app.py): the flight-category
classifier `get_flight_rules`, the METAR field extraction block, the station
metadata fetch result, and the observation-aggregate assembly. JSON numbers
are modelled as rationals, Python `None` as `Option.none`, and Python string
results are kept verbatim.
-/

namespace WeatherOps

/-- `get_flight_rules(visibility_m, ceiling_ft)` from src/app.py lines 57-68,
translated clause for clause: the `None` check first, then the if/elif chain,
returning the exact strings of the source. -/
def get_flight_rules (visibility_m ceiling_ft : Option ℚ) : String :=
  match visibility_m, ceiling_ft with
  | none, _ => "Insufficient data"
  | _, none => "Insufficient data"
  | some v, some c =>
    if 5000 ≤ v ∧ 1500 ≤ c then "VFR (Visual Flight Rules)"
    else if 3000 ≤ v ∧ 1000 ≤ c then "MVFR (Marginal VFR)"
    else if 1600 ≤ v ∧ 500 ≤ c then "IFR (Instrument Flight Rules)"
    else "LIFR (Low IFR)"

/-- Python `int()` on a rational: truncation toward zero. -/
def pyInt (q : ℚ) : ℤ := if 0 ≤ q then q.floor else -(-q).floor

theorem Rat.floor_eq_intFloor (q : ℚ) : q.floor = ⌊q⌋ := by
  rw [Rat.floor_def, Rat.floor_def']

theorem pyInt_intCast (n : ℤ) : pyInt (n : ℚ) = n := by
  unfold pyInt
  rcases le_or_lt 0 (n : ℚ) with h | h
  · rw [if_pos h, Rat.floor_eq_intFloor, Int.floor_intCast]
  · rw [if_neg (not_le.mpr h), Rat.floor_eq_intFloor, ← Int.cast_neg,
      Int.floor_intCast, neg_neg]

/-- The structured part of the METAR JSON payload that the analysis block
reads: `data.get("visibility", {}).get("meters_float")` and, for every
cloud layer, `cloud.get("base_feet_agl")` (absent keys are `none`). -/
structure MetarPayload where
  visibility_meters_float : Option ℚ
  clouds : List (Option ℚ)
deriving DecidableEq

/-- Line 106: `vis = float(vis_raw) if vis_raw else None` - Python
truthiness, so both a missing value and a reported 0 yield `None`. -/
def extract_vis (p : MetarPayload) : Option ℚ :=
  match p.visibility_meters_float with
  | none => none
  | some q => if q = 0 then none else some q

/-- Lines 107-111: scan the cloud layers in order; the first layer whose
`base_feet_agl` is truthy (present and nonzero) gives the ceiling via
`int(...)`, and the loop breaks; falsy layers are skipped. -/
def extract_ceiling : List (Option ℚ) → Option ℤ
  | [] => none
  | c :: rest =>
    match c with
    | some b => if b = 0 then extract_ceiling rest else some (pyInt b)
    | none => extract_ceiling rest

/-- Substring test on character lists, as Python `in` on strings. -/
def listContains (pat : List Char) : List Char → Bool
  | [] => pat.isEmpty
  | c :: rest => pat.isPrefixOf (c :: rest) || listContains pat rest

/-- Line 113: `"CAVOK" in metar_raw.upper()`. -/
def containsCAVOK (raw : String) : Bool :=
  listContains ("CAVOK".toList) (raw.toList.map Char.toUpper)

/-- Lines 105-115: structured extraction followed by the CAVOK override,
which replaces both values with (10000, 5000) when the raw METAR text
contains "CAVOK" case-insensitively. -/
def extractFields (metar_raw : String) (p : MetarPayload) :
    Option ℚ × Option ℚ :=
  let vis := extract_vis p
  let ceiling := (extract_ceiling p.clouds).map (fun z => (z : ℚ))
  if containsCAVOK metar_raw then (some 10000, some 5000) else (vis, ceiling)

/-- The METAR analysis try-block, src/app.py lines 101-127. Its observable
outcome is `none` when the bare `except` at line 126 is taken, and otherwise
the displayed (visibility, ceiling, flight-rules string). When the
current-observation fetch failed, `metar_raw` is Python `None` and line 113
(`"CAVOK" in metar_raw.upper()`) raises `AttributeError`, which the bare
`except` absorbs: `get_flight_rules` is never called on that path and the
structured values extracted at lines 105-111 are discarded. -/
def analyzeMetarBlock (metar_raw : Option String) (p : MetarPayload) :
    Option (Option ℚ × Option ℚ × String) :=
  match metar_raw with
  | none => none
  | some raw =>
    let vc := extractFields raw p
    some (vc.1, vc.2, get_flight_rules vc.1 vc.2)

/-- The fields of the station-metadata JSON that `get_station_name` reads:
`data.get("name", "Unknown name")`, `data.get("latitude")`,
`data.get("longitude")` (absent keys are `none`). -/
structure StationPayload where
  name : Option String
  latitude : Option ℚ
  longitude : Option ℚ
deriving DecidableEq

/-- `get_station_name(icao)` from src/app.py lines 48-55: `none` models a
non-200 response, in which case the literal triple
`("Unknown name", None, None)` is returned; on a 200 response each field is
read with its own default. -/
def get_station_name (resp : Option StationPayload) :
    String × Option ℚ × Option ℚ :=
  match resp with
  | none => ("Unknown name", none, none)
  | some d => (d.name.getD "Unknown name", d.latitude, d.longitude)

/-- The merged observation record the page renders for one query: station
display data (lines 92-98), METAR raw/sanitized text and the analysis-block
outcome (lines 100-133), and TAF raw/sanitized text (lines 135-140). -/
structure ObservationAggregate where
  station_name : String
  lat : Option ℚ
  lon : Option ℚ
  metar_raw : Option String
  metar_text : Option String
  taf_raw : Option String
  taf_text : Option String
  analysis : Option (Option ℚ × Option ℚ × String)
deriving DecidableEq

/-- Assembly of the aggregate from the three independent fetch results
(src/app.py lines 90-92) plus the current-observation payload read back by
the analysis block. `get_metar`/`get_taf` return `(None, None)` on failure,
modelled as `none`; a successful fetch is the `(raw, sanitized)` pair. -/
def assembleAggregate (metar taf : Option (String × String))
    (stationResp : Option StationPayload) (p : MetarPayload) :
    ObservationAggregate :=
  let s := get_station_name stationResp
  { station_name := s.1
    lat := s.2.1
    lon := s.2.2
    metar_raw := Option.map Prod.fst metar
    metar_text := Option.map Prod.snd metar
    taf_raw := Option.map Prod.fst taf
    taf_text := Option.map Prod.snd taf
    analysis := analyzeMetarBlock (Option.map Prod.fst metar) p }

/-- Rule table transcribed from the specification text (spec section 4.2),
kept separate from the implementation so the two can be compared: evaluated
top to bottom, first match wins, thresholds are inclusive lower bounds. -/
def specRuleTable (v c : ℚ) : String :=
  if 5000 ≤ v ∧ 1500 ≤ c then "VFR (Visual Flight Rules)"
  else if 3000 ≤ v ∧ 1000 ≤ c then "MVFR (Marginal VFR)"
  else if 1600 ≤ v ∧ 500 ≤ c then "IFR (Instrument Flight Rules)"
  else "LIFR (Low IFR)"

end WeatherOps

namespace WeatherOps

/-- C1: on pairs with both values present, the classifier agrees everywhere
with the spec's rule table (top to bottom, first match wins, inclusive lower
bounds), and the four scenario inputs evaluate to VFR, MVFR, IFR and LIFR
respectively. -/
theorem C1_classifier_implements_rule_table :
    (∀ v c : ℚ, get_flight_rules (some v) (some c) = specRuleTable v c)
    ∧ get_flight_rules (some 6000) (some 2000) = "VFR (Visual Flight Rules)"
    ∧ get_flight_rules (some 3500) (some 1000) = "MVFR (Marginal VFR)"
    ∧ get_flight_rules (some 1700) (some 600) = "IFR (Instrument Flight Rules)"
    ∧ get_flight_rules (some 800) (some 200) = "LIFR (Low IFR)" :=
  ⟨fun _ _ => rfl, by decide, by decide, by decide, by decide⟩

/-- C2: whenever the raw METAR text contains "CAVOK" case-insensitively,
extraction returns exactly (10000, 5000) whatever the structured visibility
and cloud-layer fields hold. -/
theorem C2_cavok_override (raw : String) (p : MetarPayload)
    (h : containsCAVOK raw = true) :
    extractFields raw p = (some 10000, some 5000) := by
  simp [extractFields, h]

/-- C2 witness: a lowercase "Cavok" in the raw text with every structured
field absent still yields (10000, 5000). -/
theorem C2_cavok_override_witness :
    extractFields "LFPG 121030Z 27010KT Cavok 15/10 Q1020" ⟨none, []⟩
      = (some 10000, some 5000) :=
  C2_cavok_override _ _ (by decide)

/-- C3: an absent visibility or an absent ceiling yields "Insufficient data"
whatever the other argument is; the absence match precedes every threshold
comparison in `get_flight_rules` and the function is total, so no numeric
branch is evaluated and nothing is raised. -/
theorem C3_absent_means_insufficient_data :
    (∀ v : Option ℚ, get_flight_rules v none = "Insufficient data")
    ∧ (∀ c : Option ℚ, get_flight_rules none c = "Insufficient data") :=
  ⟨fun v => by cases v <;> rfl, fun c => by cases c <;> rfl⟩

/-- C4 counterexample: with the current-observation fetch failed (raw text
`none`) and an empty structured payload, the analysis block takes its except
path and produces no category at all - in particular not the triple carrying
"Insufficient data" that the claim announces. -/
theorem C4_counterexample :
    analyzeMetarBlock none ⟨none, []⟩ = none
    ∧ analyzeMetarBlock none ⟨none, []⟩ ≠ some (none, none, "Insufficient data") := by
  exact ⟨rfl, by decide⟩

/-- C4 amended: when the current-observation fetch fails, the analysis block
aborts through its bare except (the attribute access on the absent raw text
raises inside the try), so classification never runs and no category - not
even INSUFFICIENT_DATA - is produced; the block's result is the absence
marker and, being a total function, it lets no exception escape. When the
fetch succeeds, the block runs extraction and classification. -/
theorem C4_fetch_failure_skips_classification :
    (∀ p : MetarPayload, analyzeMetarBlock none p = none)
    ∧ (∀ (raw : String) (p : MetarPayload),
        analyzeMetarBlock (some raw) p
          = some ((extractFields raw p).1, (extractFields raw p).2,
              get_flight_rules (extractFields raw p).1 (extractFields raw p).2)) :=
  ⟨fun _ => rfl, fun _ _ => rfl⟩

/-- C5 counterexample: with layers reporting bases 3000 ft then 1000 ft, the
extraction loop keeps the first truthy base and breaks, returning 3000 ft,
not the minimum 1000 ft the claim announces. -/
theorem C5_counterexample :
    extract_ceiling [some 3000, some 1000] = some 3000
    ∧ extract_ceiling [some 3000, some 1000] ≠ some 1000 := by decide

/-- C5 amended: the derived ceiling is the base (converted by Python `int()`)
of the first layer in reported order whose base is present and nonzero -
layers before it being absent or zero - and it is absent when every layer's
base is absent or zero; the loop does not keep scanning for the minimum. -/
theorem C5_ceiling_is_first_truthy_layer :
    (∀ (pre post : List (Option ℚ)) (b : ℚ),
        (∀ x ∈ pre, x = none ∨ x = some 0) → b ≠ 0 →
        extract_ceiling (pre ++ some b :: post) = some (pyInt b))
    ∧ (∀ L : List (Option ℚ), (∀ x ∈ L, x = none ∨ x = some 0) →
        extract_ceiling L = none) := by
  constructor
  · intro pre
    induction pre with
    | nil =>
      intro post b _ hb
      simp [extract_ceiling, hb]
    | cons x xs ih =>
      intro post b hpre hb
      have hx : x = none ∨ x = some 0 := hpre x (by simp)
      have hrest : ∀ y ∈ xs, y = none ∨ y = some 0 :=
        fun y hy => hpre y (by simp [hy])
      rcases hx with rfl | rfl
      · simpa [extract_ceiling] using ih post b hrest hb
      · simpa [extract_ceiling] using ih post b hrest hb
  · intro L
    induction L with
    | nil => intro _; rfl
    | cons x xs ih =>
      intro hL
      have hx : x = none ∨ x = some 0 := hL x (by simp)
      have hrest : ∀ y ∈ xs, y = none ∨ y = some 0 :=
        fun y hy => hL y (by simp [hy])
      rcases hx with rfl | rfl
      · simpa [extract_ceiling] using ih hrest
      · simpa [extract_ceiling] using ih hrest

/-- C5 witness: skipping an absent layer and a zero layer, the ceiling is the
1200 ft base of the first truthy layer even though an 800 ft layer follows. -/
theorem C5_ceiling_is_first_truthy_layer_witness :
    extract_ceiling ([none, some 0] ++ some 1200 :: [some 800])
      = some (pyInt 1200) :=
  C5_ceiling_is_first_truthy_layer.1 [none, some 0] [some 800] 1200
    (by decide) (by decide)

/-- C6 counterexample: (v, c) = (3500, 500) lies in the claim's first MVFR
disjunct (3000 ≤ v < 5000, no ceiling constraint), yet the classifier
returns IFR because the MVFR branch also requires c ≥ 1000. -/
theorem C6_counterexample :
    ((3000:ℚ) ≤ 3500 ∧ (3500:ℚ) < 5000)
    ∧ get_flight_rules (some 3500) (some 500) = "IFR (Instrument Flight Rules)"
    ∧ "IFR (Instrument Flight Rules)" ≠ "MVFR (Marginal VFR)" := by decide

/-- C6 amended: the MVFR region is (3000 ≤ v < 5000 and c ≥ 1000) or
(v ≥ 5000 and 1000 ≤ c < 1500); at the boundary classify(3000, 1000) = MVFR
and classify(2999, 1000) = IFR. -/
theorem C6_mvfr_region :
    (∀ v c : ℚ,
        ((3000 ≤ v ∧ v < 5000 ∧ 1000 ≤ c) ∨ (5000 ≤ v ∧ 1000 ≤ c ∧ c < 1500)) →
        get_flight_rules (some v) (some c) = "MVFR (Marginal VFR)")
    ∧ get_flight_rules (some 3000) (some 1000) = "MVFR (Marginal VFR)"
    ∧ get_flight_rules (some 2999) (some 1000) = "IFR (Instrument Flight Rules)" := by
  refine ⟨?_, by decide, by decide⟩
  intro v c h
  have h1 : ¬(5000 ≤ v ∧ 1500 ≤ c) := by
    rcases h with ⟨_, hv, _⟩ | ⟨_, _, hc⟩
    · exact fun hx => absurd hx.1 (not_le.mpr hv)
    · exact fun hx => absurd hx.2 (not_le.mpr hc)
  have h2 : 3000 ≤ v ∧ 1000 ≤ c := by
    rcases h with ⟨ha, _, hc⟩ | ⟨hv, hc, _⟩
    · exact ⟨ha, hc⟩
    · exact ⟨by linarith, hc⟩
  simp [get_flight_rules, h1, h2]

/-- C6 witness: (3500, 1200) falls in the amended first disjunct and
classifies as MVFR. -/
theorem C6_mvfr_region_witness :
    get_flight_rules (some 3500) (some 1200) = "MVFR (Marginal VFR)" :=
  C6_mvfr_region.1 3500 1200 (Or.inl ⟨by decide, by decide, by decide⟩)

/-- C7 counterexample: without CAVOK, a reported visibility of 0 m is present
in the payload yet extraction returns absent (Python truthiness discards it),
and a reported cloud base of 1500.5 ft becomes the ceiling 1500 ft through
`int()` truncation rather than the exact reported value. -/
theorem C7_counterexample :
    extractFields "METAR LFPG NIL" ⟨some 0, [some (3001/2)]⟩ = (none, some 1500)
    ∧ (none : Option ℚ) ≠ some 0
    ∧ ((1500:ℚ) ≠ 3001/2) := by
  have hcav : containsCAVOK "METAR LFPG NIL" = false := by decide
  have hne : (3001/2 : ℚ) ≠ 0 := by norm_num
  have hpy : pyInt (3001/2 : ℚ) = 1500 := by norm_num [pyInt, Rat.floor_def']
  refine ⟨?_, by decide, by norm_num⟩
  simp [extractFields, extract_vis, extract_ceiling, hcav, hne, hpy]

/-- C7 amended: in the absence of a CAVOK override, a present nonzero
visibility passes through exactly, a reported visibility of 0 becomes
absent, and the ceiling slot carries the scanned layer value converted by
Python `int()` (truncation toward zero), which is the exact reported base
whenever that base is integral. -/
theorem C7_no_cavok_passthrough :
    (∀ (raw : String) (p : MetarPayload) (v : ℚ),
        containsCAVOK raw = false → p.visibility_meters_float = some v →
        v ≠ 0 → (extractFields raw p).1 = some v)
    ∧ (∀ (raw : String) (p : MetarPayload),
        containsCAVOK raw = false → p.visibility_meters_float = some 0 →
        (extractFields raw p).1 = none)
    ∧ (∀ (raw : String) (p : MetarPayload),
        containsCAVOK raw = false →
        (extractFields raw p).2 = (extract_ceiling p.clouds).map (fun z => (z : ℚ)))
    ∧ (∀ n : ℤ, pyInt (n : ℚ) = n) := by
  refine ⟨?_, ?_, ?_, pyInt_intCast⟩
  · intro raw p v hcav hv hvne
    simp [extractFields, extract_vis, hcav, hv, hvne]
  · intro raw p hcav hv
    simp [extractFields, extract_vis, hcav, hv]
  · intro raw p hcav
    simp [extractFields, hcav]

/-- C7 witness: a present visibility of 9999 m with no CAVOK in the raw text
is returned unchanged. -/
theorem C7_no_cavok_passthrough_witness :
    (extractFields "METAR EGLL 9999" ⟨some 9999, []⟩).1 = some 9999 :=
  C7_no_cavok_passthrough.1 "METAR EGLL 9999" ⟨some 9999, []⟩ 9999
    (by decide) rfl (by decide)

/-- C8: each fetch is reflected independently in the aggregate. When the
forecast fetch fails while the current-observation and station fetches
succeed, the TAF text is absent yet the analysis outcome is present (a
classification string is produced) and the station name is the station
fetch's own result; moreover replacing any one fetch's result never changes
the fields fed by the other two. -/
theorem C8_partial_failure_independence :
    (∀ (m : String × String) (st : Option StationPayload) (p : MetarPayload),
        (assembleAggregate (some m) none st p).taf_raw = none
        ∧ (assembleAggregate (some m) none st p).taf_text = none
        ∧ (assembleAggregate (some m) none st p).analysis
            = some ((extractFields m.1 p).1, (extractFields m.1 p).2,
                get_flight_rules (extractFields m.1 p).1 (extractFields m.1 p).2)
        ∧ (assembleAggregate (some m) none st p).station_name
            = (get_station_name st).1)
    ∧ (∀ (metar t1 t2 : Option (String × String)) (st : Option StationPayload)
          (p : MetarPayload),
        (assembleAggregate metar t1 st p).station_name
            = (assembleAggregate metar t2 st p).station_name
        ∧ (assembleAggregate metar t1 st p).lat = (assembleAggregate metar t2 st p).lat
        ∧ (assembleAggregate metar t1 st p).lon = (assembleAggregate metar t2 st p).lon
        ∧ (assembleAggregate metar t1 st p).metar_raw
            = (assembleAggregate metar t2 st p).metar_raw
        ∧ (assembleAggregate metar t1 st p).metar_text
            = (assembleAggregate metar t2 st p).metar_text
        ∧ (assembleAggregate metar t1 st p).analysis
            = (assembleAggregate metar t2 st p).analysis)
    ∧ (∀ (m1 m2 taf : Option (String × String)) (st : Option StationPayload)
          (p : MetarPayload),
        (assembleAggregate m1 taf st p).taf_raw = (assembleAggregate m2 taf st p).taf_raw
        ∧ (assembleAggregate m1 taf st p).taf_text
            = (assembleAggregate m2 taf st p).taf_text
        ∧ (assembleAggregate m1 taf st p).station_name
            = (assembleAggregate m2 taf st p).station_name
        ∧ (assembleAggregate m1 taf st p).lat = (assembleAggregate m2 taf st p).lat
        ∧ (assembleAggregate m1 taf st p).lon = (assembleAggregate m2 taf st p).lon)
    ∧ (∀ (metar taf : Option (String × String)) (s1 s2 : Option StationPayload)
          (p : MetarPayload),
        (assembleAggregate metar taf s1 p).metar_raw
            = (assembleAggregate metar taf s2 p).metar_raw
        ∧ (assembleAggregate metar taf s1 p).metar_text
            = (assembleAggregate metar taf s2 p).metar_text
        ∧ (assembleAggregate metar taf s1 p).taf_raw
            = (assembleAggregate metar taf s2 p).taf_raw
        ∧ (assembleAggregate metar taf s1 p).taf_text
            = (assembleAggregate metar taf s2 p).taf_text
        ∧ (assembleAggregate metar taf s1 p).analysis
            = (assembleAggregate metar taf s2 p).analysis) :=
  ⟨fun _ _ _ => ⟨rfl, rfl, rfl, rfl⟩,
   fun _ _ _ _ _ => ⟨rfl, rfl, rfl, rfl, rfl, rfl⟩,
   fun _ _ _ _ _ => ⟨rfl, rfl, rfl, rfl, rfl⟩,
   fun _ _ _ _ _ => ⟨rfl, rfl, rfl, rfl, rfl⟩⟩

/-- C9: over pairs with both values present and non-negative, the classifier
lands in exactly one of the four numeric categories and never in the
"Insufficient data" sentinel. -/
theorem C9_numeric_branches_exclusive_exhaustive (v c : ℚ)
    (_hv : 0 ≤ v) (_hc : 0 ≤ c) :
    (get_flight_rules (some v) (some c) = "VFR (Visual Flight Rules)"
      ∨ get_flight_rules (some v) (some c) = "MVFR (Marginal VFR)"
      ∨ get_flight_rules (some v) (some c) = "IFR (Instrument Flight Rules)"
      ∨ get_flight_rules (some v) (some c) = "LIFR (Low IFR)")
    ∧ get_flight_rules (some v) (some c) ≠ "Insufficient data" := by
  simp only [get_flight_rules]
  split_ifs <;> exact ⟨by tauto, by decide⟩

/-- C9 witness: at (800, 200) the classifier yields one of the four numeric
categories and not the sentinel. -/
theorem C9_numeric_branches_witness :
    (get_flight_rules (some 800) (some 200) = "VFR (Visual Flight Rules)"
      ∨ get_flight_rules (some 800) (some 200) = "MVFR (Marginal VFR)"
      ∨ get_flight_rules (some 800) (some 200) = "IFR (Instrument Flight Rules)"
      ∨ get_flight_rules (some 800) (some 200) = "LIFR (Low IFR)")
    ∧ get_flight_rules (some 800) (some 200) ≠ "Insufficient data" :=
  C9_numeric_branches_exclusive_exhaustive 800 200 (by decide) (by decide)

/-- C10 counterexample: a successful (200) station response whose payload
lacks the name field but carries coordinates is a "missing field" failure in
the claim's sense, yet the fetch keeps the coordinates: latitude and
longitude are not absent as the claim announces. -/
theorem C10_counterexample :
    get_station_name (some ⟨none, some 48, some 2⟩)
      = ("Unknown name", some 48, some 2)
    ∧ (get_station_name (some ⟨none, some 48, some 2⟩)).2.1 ≠ none := by decide

/-- C10 amended: on an unsuccessful response the station fetch returns
exactly ("Unknown name", absent, absent); on a successful response each
field defaults independently - a missing name yields "Unknown name" while
the coordinates always pass through as reported, absent only when
themselves missing - and the station result never affects the METAR, TAF or
analysis fields of the aggregate. -/
theorem C10_station_failure_defaults :
    get_station_name none = ("Unknown name", none, none)
    ∧ (∀ d : StationPayload, d.name = none →
        (get_station_name (some d)).1 = "Unknown name")
    ∧ (∀ d : StationPayload,
        (get_station_name (some d)).2.1 = d.latitude
        ∧ (get_station_name (some d)).2.2 = d.longitude)
    ∧ (∀ (metar taf : Option (String × String)) (s1 s2 : Option StationPayload)
          (p : MetarPayload),
        (assembleAggregate metar taf s1 p).metar_raw
            = (assembleAggregate metar taf s2 p).metar_raw
        ∧ (assembleAggregate metar taf s1 p).taf_raw
            = (assembleAggregate metar taf s2 p).taf_raw
        ∧ (assembleAggregate metar taf s1 p).analysis
            = (assembleAggregate metar taf s2 p).analysis) :=
  ⟨rfl,
   fun d h => by simp [get_station_name, h],
   fun _ => ⟨rfl, rfl⟩,
   fun _ _ _ _ _ => ⟨rfl, rfl, rfl⟩⟩

/-- C10 witness: a payload with no name but a present latitude gets the
"Unknown name" default. -/
theorem C10_station_failure_defaults_witness :
    (get_station_name (some ⟨none, some 48, none⟩)).1 = "Unknown name" :=
  C10_station_failure_defaults.2.1 ⟨none, some 48, none⟩ rfl

end WeatherOps
